import Mathlib

/-!
# Fault-hardened boot image verification (day3/am/figures, Listing4.c, Listing7.c and Listing8.c)

A shallow embedding of the listings.

* `unsigned int` is 32 bits wide: every value assigned to an `unsigned int`
  is reduced modulo `2 ^ 32`.
* `void *` values are addresses, modelled as natural numbers; a pointer is at
  least as wide as `unsigned int`, so the casts `(void *)x` of the listing keep
  the value and `^` on pointers is bitwise exclusive or.
* `get_known_hash`, `calculate_hash`, `random`, `delay`, `load_image`,
  `jump_to_image`, `erase_sensitive_data` and `boot_backup_image` are external
  to the listings; their results are read from an `Oracle`, and the calls made
  are counted in a `World`.
* `*boot_ptr` is one memory cell, passed in and handed back.
-/

namespace SecureBoot

/-- Modulus of the 32-bit type `unsigned int`. -/
def UINT_MOD : Nat := 2 ^ 32

/-- Sparse success code returned on line 24 of Listing8.c and tested on line 12 of Listing7.c. -/
def STATUS_OK : Nat := 0xDEADF00D

/-- Sparse failure code returned on lines 15, 19, 22 of Listing8.c and tested on line 16 of Listing7.c. -/
def STATUS_FAIL : Nat := 0xF4110911

/-- Value of `return -1` in a function returning `unsigned int`. -/
def STATUS_DEFAULT : Nat := ((-1 : Int) % (UINT_MOD : Int)).toNat

/-- External collaborators of the listings. -/
structure Oracle where
  /-- Result of the `n`-th call (counted from 0) of `get_known_hash()`. -/
  get_known_hash : Nat → Nat
  /-- Result of `calculate_hash(image)` for the image at an address. -/
  calculate_hash : Nat → Nat
  /-- Result of the `n`-th call (counted from 0) of `random()`. -/
  random : Nat → Nat
  /-- Whether `jump_to_image` hands control back to its caller. -/
  jump_returns : Bool

/-- Bookkeeping of the calls made to the external collaborators. -/
structure World where
  /-- Number of calls of `get_known_hash` made so far. -/
  knownCalls : Nat
  /-- Number of calls of `calculate_hash` made so far. -/
  hashCalls : Nat
  /-- Number of calls of `random` made so far. -/
  randomCalls : Nat
  /-- Sum of the arguments of all `delay` calls made so far. -/
  elapsed : Nat
  deriving DecidableEq, Repr

/-- Call `get_known_hash()`. The listing assigns the result to an `unsigned int`
(line 4) and casts it to `void *` (line 10); its declaration is outside the
listing and the result is taken to be an `unsigned int` at both places. -/
def call_get_known_hash (o : Oracle) (w : World) : Nat × World :=
  (o.get_known_hash w.knownCalls % UINT_MOD, { w with knownCalls := w.knownCalls + 1 })

/-- Call `calculate_hash(image)` and convert the result to `unsigned int`. -/
def call_calculate_hash (o : Oracle) (w : World) (image : Nat) : Nat × World :=
  (o.calculate_hash image % UINT_MOD, { w with hashCalls := w.hashCalls + 1 })

/-- The statement `delay(random());`. -/
def delay_random (o : Oracle) (w : World) : World :=
  { w with randomCalls := w.randomCalls + 1, elapsed := w.elapsed + o.random w.randomCalls }

/-- What one call of `verify_image` leaves behind. -/
structure VerifyResult where
  /-- The returned `unsigned int`. -/
  code : Nat
  /-- Content of `*boot_ptr` when the routine returns. -/
  boot : Nat
  /-- Whether the store of line 23 was executed. -/
  stored : Bool
  /-- Line of Listing8.c holding the `return` that was taken. -/
  exit : Nat
  /-- Call bookkeeping when the routine returns. -/
  world : World
  deriving DecidableEq, Repr

/-- Listing8.c, `verify_image(image, boot_ptr)`, where `boot` is the content of
`*boot_ptr` on entry. -/
def verify_image (o : Oracle) (w : World) (image : Nat) (boot : Nat) : VerifyResult :=
  -- line 4
  let (expected_hash, w) := call_get_known_hash o w
  -- line 5
  let (hash, w) := call_calculate_hash o w image
  -- line 10
  let (known, w) := call_get_known_hash o w
  let possible_ptr := known ^^^ image
  -- line 11
  let possible_ptr := possible_ptr ^^^ (1 <<< 14)
  -- line 12
  let possible_ptr := possible_ptr ^^^ (1 <<< 15)
  -- line 15
  if expected_hash != hash then ⟨STATUS_FAIL, boot, false, 15, w⟩ else
  -- line 16
  let possible_ptr := if expected_hash == hash then possible_ptr ^^^ (1 <<< 14) else possible_ptr
  -- line 17
  let w := delay_random o w
  -- line 18
  let possible_ptr := if expected_hash == hash then possible_ptr ^^^ (1 <<< 15) else possible_ptr
  -- line 19
  if expected_hash != hash then ⟨STATUS_FAIL, boot, false, 19, w⟩ else
  -- line 20
  let w := delay_random o w
  -- line 21
  let possible_ptr := if expected_hash == hash then possible_ptr ^^^ expected_hash else possible_ptr
  -- line 22
  if expected_hash != hash then ⟨STATUS_FAIL, boot, false, 22, w⟩ else
  -- line 23
  let (boot, stored) := if expected_hash == hash then (possible_ptr, true) else (boot, false)
  -- line 24
  if expected_hash == hash then ⟨STATUS_OK, boot, stored, 24, w⟩ else
  -- line 25
  ⟨STATUS_DEFAULT, boot, stored, 25, w⟩

/-- Outcome of the conditional on line `line` when the outcomes of the lines
selected by `g` are forced to the opposite value. -/
def forced (g : Nat → Bool) (line : Nat) (cond : Bool) : Bool :=
  xor cond (g line)

/-- Lines of Listing8.c that hold a conditional check. -/
def checkLines : List Nat := [15, 16, 18, 19, 21, 22, 23, 24]

/-- Fault selection that forces the check on line `l` and no other. -/
def only (l : Nat) : Nat → Bool := fun line => line == l

/-- Fault selection that forces nothing. -/
def noFault : Nat → Bool := fun _ => false

/-- Listing8.c, `verify_image`, run with the outcome of every check whose line
is selected by `g` forced to the opposite value. -/
def verify_image_forced (g : Nat → Bool) (o : Oracle) (w : World) (image : Nat) (boot : Nat) :
    VerifyResult :=
  -- line 4
  let (expected_hash, w) := call_get_known_hash o w
  -- line 5
  let (hash, w) := call_calculate_hash o w image
  -- line 10
  let (known, w) := call_get_known_hash o w
  let possible_ptr := known ^^^ image
  -- line 11
  let possible_ptr := possible_ptr ^^^ (1 <<< 14)
  -- line 12
  let possible_ptr := possible_ptr ^^^ (1 <<< 15)
  -- line 15
  if forced g 15 (expected_hash != hash) then ⟨STATUS_FAIL, boot, false, 15, w⟩ else
  -- line 16
  let possible_ptr :=
    if forced g 16 (expected_hash == hash) then possible_ptr ^^^ (1 <<< 14) else possible_ptr
  -- line 17
  let w := delay_random o w
  -- line 18
  let possible_ptr :=
    if forced g 18 (expected_hash == hash) then possible_ptr ^^^ (1 <<< 15) else possible_ptr
  -- line 19
  if forced g 19 (expected_hash != hash) then ⟨STATUS_FAIL, boot, false, 19, w⟩ else
  -- line 20
  let w := delay_random o w
  -- line 21
  let possible_ptr :=
    if forced g 21 (expected_hash == hash) then possible_ptr ^^^ expected_hash else possible_ptr
  -- line 22
  if forced g 22 (expected_hash != hash) then ⟨STATUS_FAIL, boot, false, 22, w⟩ else
  -- line 23
  let (boot, stored) :=
    if forced g 23 (expected_hash == hash) then (possible_ptr, true) else (boot, false)
  -- line 24
  if forced g 24 (expected_hash == hash) then ⟨STATUS_OK, boot, stored, 24, w⟩ else
  -- line 25
  ⟨STATUS_DEFAULT, boot, stored, 25, w⟩

/-- Calls made by the controller, in the order they are made. -/
inductive Event where
  | load_image (image : Nat)
  | delay (ticks : Nat)
  | verify_image (image : Nat)
  | jump_to_image (target : Nat)
  | erase_sensitive_data
  | boot_backup_image
  deriving DecidableEq, Repr

/-- Where the controller of Listing7.c stands. -/
inductive Pc where
  /-- About to execute the statement on the given line of Listing7.c. -/
  | line (n : Nat)
  /-- Control was handed to the image by a `jump_to_image` that does not come back. -/
  | transferred
  /-- Execution ran past the last statement of the listing. -/
  | finished
  deriving DecidableEq, Repr

/-- State of the controller of Listing7.c. -/
structure Ctl where
  pc : Pc
  test_image : Nat
  boot_image : Nat
  status : Nat
  world : World
  trace : List Event
  deriving DecidableEq, Repr

/-- The null pointer. -/
def NULL : Nat := 0

/-- A routine with the calling convention of `verify_image`. -/
abbrev Verifier := Oracle → World → Nat → Nat → VerifyResult

/-- Listing7.c, lines 1 to 3: the declarations and their initialisers. `test_image`
has no initialiser, so its value `test_image` is whatever the caller finds there;
`ERROR_HANDLER_ADDRESS` is defined outside the listing. -/
def listing7_init (w : World) (test_image ERROR_HANDLER_ADDRESS : Nat) : Ctl :=
  { pc := .line 5, test_image := test_image, boot_image := ERROR_HANDLER_ADDRESS,
    status := 0, world := w, trace := [] }

/-- Listing7.c, one statement of the controller, linked against the verifier `v`. -/
def listing7_step (v : Verifier) (o : Oracle) (s : Ctl) : Ctl :=
  match s.pc with
  | .line 5 =>
      { s with pc := .line 7, trace := s.trace ++ [.load_image s.test_image] }
  | .line 7 =>
      { s with pc := .line 9, world := delay_random o s.world,
               trace := s.trace ++ [.delay (o.random s.world.randomCalls)] }
  | .line 9 =>
      let r := v o s.world s.test_image s.boot_image
      { s with pc := .line 12, status := r.code % UINT_MOD, boot_image := r.boot,
               world := r.world, trace := s.trace ++ [.verify_image s.test_image] }
  | .line 12 =>
      if s.status = STATUS_OK then { s with pc := .line 14 } else { s with pc := .line 16 }
  | .line 14 =>
      { s with pc := .line 15, world := delay_random o s.world,
               trace := s.trace ++ [.delay (o.random s.world.randomCalls)] }
  | .line 15 =>
      { s with pc := if o.jump_returns then .line 27 else .transferred,
               trace := s.trace ++ [.jump_to_image s.boot_image] }
  | .line 16 =>
      if s.status = STATUS_FAIL then { s with pc := .line 18 } else { s with pc := .line 23 }
  | .line 18 => { s with pc := .line 19, test_image := NULL }
  | .line 19 => { s with pc := .line 20, boot_image := NULL }
  | .line 20 => s
  | .line 23 =>
      { s with pc := .line 24, trace := s.trace ++ [.erase_sensitive_data] }
  | .line 24 => s
  | .line 27 =>
      { s with pc := .finished, trace := s.trace ++ [.boot_backup_image] }
  | _ => s

/-- Listing7.c run for `n` statements. -/
def listing7_run (v : Verifier) (o : Oracle) : Nat → Ctl → Ctl
  | 0, s => s
  | n + 1, s => listing7_run v o n (listing7_step v o s)

/-- Targets of the `jump_to_image` calls of a trace, in order. -/
def jumps : List Event → List Nat
  | [] => []
  | .jump_to_image t :: es => t :: jumps es
  | _ :: es => jumps es

/-- Number of `erase_sensitive_data` calls of a trace. -/
def erases : List Event → Nat
  | [] => 0
  | .erase_sensitive_data :: es => erases es + 1
  | _ :: es => erases es

/-- Calls of a trace that load, verify or start an image: the `load_image`,
`verify_image`, `jump_to_image` and `boot_backup_image` calls, in order. -/
def bootCalls : List Event → List Event
  | [] => []
  | .load_image i :: es => .load_image i :: bootCalls es
  | .verify_image i :: es => .verify_image i :: bootCalls es
  | .jump_to_image t :: es => .jump_to_image t :: bootCalls es
  | .boot_backup_image :: es => .boot_backup_image :: bootCalls es
  | _ :: es => bootCalls es

/-- Listing8.c, lines 4 to 21: the values held by `possible_ptr` after line 12
and after each of the lines 16, 18 and 21 that execution reaches. -/
def possible_ptr_steps (o : Oracle) (w : World) (image : Nat) : List Nat :=
  -- line 4
  let (expected_hash, w) := call_get_known_hash o w
  -- line 5
  let (hash, w) := call_calculate_hash o w image
  -- line 10
  let (known, _) := call_get_known_hash o w
  let p0 := known ^^^ image
  -- line 11
  let p0 := p0 ^^^ (1 <<< 14)
  -- line 12
  let p0 := p0 ^^^ (1 <<< 15)
  -- line 15
  if expected_hash != hash then [p0] else
  -- line 16
  let p1 := if expected_hash == hash then p0 ^^^ (1 <<< 14) else p0
  -- line 18
  let p2 := if expected_hash == hash then p1 ^^^ (1 <<< 15) else p1
  -- line 19
  if expected_hash != hash then [p0, p1, p2] else
  -- line 21
  let p3 := if expected_hash == hash then p2 ^^^ expected_hash else p2
  [p0, p1, p2, p3]

/-- State of the controller of Listing4.c. -/
structure Ctl4 where
  pc : Pc
  boot_image : Nat
  trace : List Event
  deriving DecidableEq, Repr

/-- Listing4.c, line 1: `boot_image` has no initialiser. -/
def listing4_init (boot_image : Nat) : Ctl4 :=
  { pc := .line 3, boot_image := boot_image, trace := [] }

/-- Listing4.c, one statement of the controller. Its one-argument `verify_image`
is declared outside the listing; `verify` gives the `int` it returns for an
image address (the listing compares it with `0` and documents `-1`). -/
def listing4_step (verify : Nat → Int) (o : Oracle) (s : Ctl4) : Ctl4 :=
  match s.pc with
  | .line 3 =>
      { s with pc := .line 7, trace := s.trace ++ [.load_image s.boot_image] }
  | .line 7 =>
      if verify s.boot_image < 0 then
        { s with pc := .line 9, trace := s.trace ++ [.verify_image s.boot_image] }
      else
        { s with pc := .line 12, trace := s.trace ++ [.verify_image s.boot_image] }
  | .line 9 => s
  | .line 12 =>
      { s with pc := if o.jump_returns then .finished else .transferred,
               trace := s.trace ++ [.jump_to_image s.boot_image] }
  | _ => s

/-- Listing4.c run for `n` statements. -/
def listing4_run (verify : Nat → Int) (o : Oracle) : Nat → Ctl4 → Ctl4
  | 0, s => s
  | n + 1, s => listing4_run verify o n (listing4_step verify o s)

/-- Number of the conditionals of Listing8.c that `g` forces. -/
def forcedCount (g : Nat → Bool) : Nat :=
  (checkLines.filter g).length

/-- Fault selection that forces the three abort checks of lines 15, 19 and 22. -/
def allAborts : Nat → Bool := fun line => line == 15 || line == 19 || line == 22

/-- A verifier that returns the code `c` and leaves everything else alone. -/
def constVerifier (c : Nat) : Verifier :=
  fun _ w _ boot => ⟨c, boot, false, 0, w⟩

/-- Number of the low `bits` bit positions in which `a` and `b` differ. -/
def hammingDistance (bits a b : Nat) : Nat :=
  ((List.range bits).filter (fun i => a.testBit i != b.testBit i)).length

/-- Oracle used in the concrete runs: both digests are `k`, every delay is 1. -/
def sampleOracle (k : Nat) : Oracle :=
  { get_known_hash := fun _ => k, calculate_hash := fun _ => k, random := fun _ => 1,
    jump_returns := false }

/-- Oracle used in the concrete runs of a mismatch: reference `k`, image digest `h`. -/
def mismatchOracle (k h : Nat) : Oracle :=
  { get_known_hash := fun _ => k, calculate_hash := fun _ => h, random := fun _ => 1,
    jump_returns := false }

/-- World in which no external call has been made yet. -/
def World.start : World := ⟨0, 0, 0, 0⟩

/-! ## Helper lemmas -/

/-- With nothing forced, the instrumented routine is `verify_image` itself. -/
theorem verify_image_forced_noFault (o : Oracle) (w : World) (image boot : Nat) :
    verify_image_forced noFault o w image boot = verify_image o w image boot := by
  simp [verify_image_forced, verify_image, forced, noFault]

/-- Fault-free run on a match: every mask cancels. -/
theorem unmask_all (k image m n : Nat) :
    k ^^^ image ^^^ m ^^^ n ^^^ m ^^^ n ^^^ k = image := by
  have h1 : ∀ a b c : Nat, a ^^^ b ^^^ c ^^^ b ^^^ c = a := by
    intro a b c
    rw [Nat.xor_assoc (a ^^^ b) c b, Nat.xor_comm c b, ← Nat.xor_assoc (a ^^^ b) b c,
      Nat.xor_assoc a b b, Nat.xor_self, Nat.xor_zero, Nat.xor_assoc, Nat.xor_self, Nat.xor_zero]
  rw [h1, Nat.xor_comm k image, Nat.xor_assoc, Nat.xor_self, Nat.xor_zero]

/-- Fault-free run of Listing8.c on a matching image, in full. -/
theorem verify_image_of_match (o : Oracle) (w : World) (image boot : Nat)
    (hsame : o.get_known_hash w.knownCalls % UINT_MOD
      = o.get_known_hash (w.knownCalls + 1) % UINT_MOD)
    (hmatch : o.calculate_hash image % UINT_MOD = o.get_known_hash w.knownCalls % UINT_MOD) :
    verify_image o w image boot
      = ⟨STATUS_OK, image, true, 24,
          delay_random o (delay_random o
            (call_get_known_hash o (call_calculate_hash o (call_get_known_hash o w).2 image).2).2)⟩ := by
  simp only [verify_image, call_get_known_hash, call_calculate_hash, hmatch, ← hsame]
  simp [unmask_all]

/-- Fault-free run of Listing8.c on an image that does not match, in full. -/
theorem verify_image_of_mismatch (o : Oracle) (w : World) (image boot : Nat)
    (hne : o.calculate_hash image % UINT_MOD ≠ o.get_known_hash w.knownCalls % UINT_MOD) :
    verify_image o w image boot
      = ⟨STATUS_FAIL, boot, false, 15,
          (call_get_known_hash o (call_calculate_hash o (call_get_known_hash o w).2 image).2).2⟩ := by
  have hne' : ¬ o.get_known_hash w.knownCalls % UINT_MOD = o.calculate_hash image % UINT_MOD :=
    fun h => hne h.symm
  simp [verify_image, call_get_known_hash, call_calculate_hash, hne']

theorem listing7_run_add (v : Verifier) (o : Oracle) (a b : Nat) (s : Ctl) :
    listing7_run v o (a + b) s = listing7_run v o b (listing7_run v o a s) := by
  induction a generalizing s with
  | zero => simp [listing7_run]
  | succ a ih => rw [Nat.succ_add]; simp only [listing7_run]; exact ih _

theorem listing7_run_fixed (v : Verifier) (o : Oracle) (s : Ctl)
    (h : listing7_step v o s = s) (n : Nat) : listing7_run v o n s = s := by
  induction n with
  | zero => rfl
  | succ n ih => simp only [listing7_run, h, ih]

/-- Once a run has come to rest, more statements change nothing. -/
theorem listing7_run_rest (v : Verifier) (o : Oracle) (s : Ctl) (m n : Nat)
    (h : listing7_step v o (listing7_run v o m s) = listing7_run v o m s) (hn : m ≤ n) :
    listing7_run v o n s = listing7_run v o m s := by
  obtain ⟨k, rfl⟩ := Nat.exists_eq_add_of_le hn
  rw [listing7_run_add, listing7_run_fixed v o _ h]

@[simp] theorem jumps_append (a b : List Event) : jumps (a ++ b) = jumps a ++ jumps b := by
  induction a with
  | nil => rfl
  | cons e es ih => cases e <;> simp [jumps, ih]

@[simp] theorem erases_append (a b : List Event) : erases (a ++ b) = erases a + erases b := by
  induction a with
  | nil => simp [erases]
  | cons e es ih => cases e <;> simp [erases, ih, Nat.add_right_comm]

theorem STATUS_OK_lt : STATUS_OK % UINT_MOD = STATUS_OK := by decide

theorem STATUS_FAIL_lt : STATUS_FAIL % UINT_MOD = STATUS_FAIL := by decide

theorem STATUS_DEFAULT_lt : STATUS_DEFAULT % UINT_MOD = STATUS_DEFAULT := by decide

theorem STATUS_FAIL_ne_OK : STATUS_FAIL ≠ STATUS_OK := by decide

theorem STATUS_DEFAULT_ne_OK : STATUS_DEFAULT ≠ STATUS_OK := by decide

theorem STATUS_DEFAULT_ne_FAIL : STATUS_DEFAULT ≠ STATUS_FAIL := by decide

theorem xor_ne_self (a m : Nat) (hm : m ≠ 0) : a ^^^ m ≠ a := by
  intro h
  apply hm
  have h2 : a ^^^ (a ^^^ m) = a ^^^ a := by rw [h]
  rwa [← Nat.xor_assoc, Nat.xor_self, Nat.zero_xor] at h2

theorem xor_head (a b : Nat) : a ^^^ (a ^^^ b) = b := by
  rw [← Nat.xor_assoc, Nat.xor_self, Nat.zero_xor]

theorem xor_swap (a b c : Nat) : a ^^^ (b ^^^ c) = b ^^^ (a ^^^ c) := by
  rw [← Nat.xor_assoc, Nat.xor_comm a b, Nat.xor_assoc]

/-- One conditional of Listing8.c forced on a matching image. -/
theorem forced_match (o : Oracle) (w : World) (image boot l : Nat)
    (hsame : o.get_known_hash w.knownCalls % UINT_MOD
      = o.get_known_hash (w.knownCalls + 1) % UINT_MOD)
    (hmatch : o.calculate_hash image % UINT_MOD = o.get_known_hash w.knownCalls % UINT_MOD)
    (hl : l ∈ checkLines) :
    ((l = 15 ∨ l = 19 ∨ l = 22)
        ∧ (verify_image_forced (only l) o w image boot).code = STATUS_FAIL
        ∧ (verify_image_forced (only l) o w image boot).stored = false
        ∧ (verify_image_forced (only l) o w image boot).boot = boot
        ∧ (verify_image_forced (only l) o w image boot).exit = l)
      ∨ (l = 16
        ∧ (verify_image_forced (only l) o w image boot).code = STATUS_OK
        ∧ (verify_image_forced (only l) o w image boot).stored = true
        ∧ (verify_image_forced (only l) o w image boot).boot = image ^^^ (1 <<< 14)
        ∧ (verify_image_forced (only l) o w image boot).exit = 24)
      ∨ (l = 18
        ∧ (verify_image_forced (only l) o w image boot).code = STATUS_OK
        ∧ (verify_image_forced (only l) o w image boot).stored = true
        ∧ (verify_image_forced (only l) o w image boot).boot = image ^^^ (1 <<< 15)
        ∧ (verify_image_forced (only l) o w image boot).exit = 24)
      ∨ (l = 21
        ∧ (verify_image_forced (only l) o w image boot).code = STATUS_OK
        ∧ (verify_image_forced (only l) o w image boot).stored = true
        ∧ (verify_image_forced (only l) o w image boot).boot
            = image ^^^ (o.get_known_hash w.knownCalls % UINT_MOD)
        ∧ (verify_image_forced (only l) o w image boot).exit = 24)
      ∨ (l = 23
        ∧ (verify_image_forced (only l) o w image boot).code = STATUS_OK
        ∧ (verify_image_forced (only l) o w image boot).stored = false
        ∧ (verify_image_forced (only l) o w image boot).boot = boot
        ∧ (verify_image_forced (only l) o w image boot).exit = 24)
      ∨ (l = 24
        ∧ (verify_image_forced (only l) o w image boot).code = STATUS_DEFAULT
        ∧ (verify_image_forced (only l) o w image boot).stored = true
        ∧ (verify_image_forced (only l) o w image boot).boot = image
        ∧ (verify_image_forced (only l) o w image boot).exit = 25) := by
  simp only [checkLines, List.mem_cons, List.mem_singleton, List.not_mem_nil, or_false] at hl
  rcases hl with rfl | rfl | rfl | rfl | rfl | rfl | rfl | rfl
  all_goals
    simp only [verify_image_forced, call_get_known_hash, call_calculate_hash, hmatch, ← hsame]
    simp [forced, only, Nat.xor_assoc, Nat.xor_comm, xor_swap, xor_head]

/-- One conditional of Listing8.c forced on an image that does not match. -/
theorem forced_mismatch (o : Oracle) (w : World) (image boot l : Nat)
    (hne : o.calculate_hash image % UINT_MOD ≠ o.get_known_hash w.knownCalls % UINT_MOD)
    (hl : l ∈ checkLines) :
    (verify_image_forced (only l) o w image boot).code = STATUS_FAIL
      ∧ (verify_image_forced (only l) o w image boot).stored = false
      ∧ (verify_image_forced (only l) o w image boot).boot = boot
      ∧ ((verify_image_forced (only l) o w image boot).exit = 15
        ∨ (verify_image_forced (only l) o w image boot).exit = 19) := by
  have hne' : ¬ o.get_known_hash w.knownCalls % UINT_MOD = o.calculate_hash image % UINT_MOD :=
    fun h => hne h.symm
  simp only [checkLines, List.mem_cons, List.mem_singleton, List.not_mem_nil, or_false] at hl
  rcases hl with rfl | rfl | rfl | rfl | rfl | rfl | rfl | rfl
  all_goals
    simp [verify_image_forced, call_get_known_hash, call_calculate_hash, forced, only, hne']

/-- No value at Hamming distance one from a sentinel is a sentinel. -/
theorem one_bit_off_sentinels :
    ∀ i, i < 32 →
      (STATUS_OK ^^^ (1 <<< i) ≠ STATUS_OK ∧ STATUS_OK ^^^ (1 <<< i) ≠ STATUS_FAIL)
        ∧ (STATUS_FAIL ^^^ (1 <<< i) ≠ STATUS_OK ∧ STATUS_FAIL ^^^ (1 <<< i) ≠ STATUS_FAIL) := by
  decide

@[simp] theorem bootCalls_append (a b : List Event) :
    bootCalls (a ++ b) = bootCalls a ++ bootCalls b := by
  induction a with
  | nil => rfl
  | cons e es ih => cases e <;> simp [bootCalls, ih]

/-- Fault-free `verify_image` leaves through line 24 with the success code or
through line 15 with the failure code. -/
theorem verify_image_codes (o : Oracle) (w : World) (image boot : Nat) :
    ((verify_image o w image boot).code = STATUS_OK ∧ (verify_image o w image boot).exit = 24)
      ∨ ((verify_image o w image boot).code = STATUS_FAIL
        ∧ (verify_image o w image boot).exit = 15) := by
  simp only [verify_image]
  split_ifs <;> simp_all

/-- The controller of Listing7.c after a status equal to the failure code. -/
theorem listing7_rejected_path (v : Verifier) (o : Oracle) (w : World)
    (test_image ERROR_HANDLER_ADDRESS : Nat)
    (hfail : (v o (delay_random o w) test_image ERROR_HANDLER_ADDRESS).code % UINT_MOD
      = STATUS_FAIL) (n : Nat) :
    erases (listing7_run v o n (listing7_init w test_image ERROR_HANDLER_ADDRESS)).trace = 0
      ∧ jumps (listing7_run v o n (listing7_init w test_image ERROR_HANDLER_ADDRESS)).trace = []
      ∧ ((listing7_run v o n (listing7_init w test_image ERROR_HANDLER_ADDRESS)).pc ≠ .line 20
        ∨ ((listing7_run v o n (listing7_init w test_image ERROR_HANDLER_ADDRESS)).test_image
            = NULL
          ∧ (listing7_run v o n (listing7_init w test_image ERROR_HANDLER_ADDRESS)).boot_image
            = NULL))
      ∧ (listing7_run v o n (listing7_init w test_image ERROR_HANDLER_ADDRESS)).pc ≠ .line 27
      ∧ (listing7_run v o n (listing7_init w test_image ERROR_HANDLER_ADDRESS)).pc ≠ .finished
      ∧ (listing7_run v o n (listing7_init w test_image ERROR_HANDLER_ADDRESS)).pc
          ≠ .transferred
      ∧ (n < 3 ∨ bootCalls (listing7_run v o n
            (listing7_init w test_image ERROR_HANDLER_ADDRESS)).trace
          = [.load_image test_image, .verify_image test_image])
      ∧ (n < 7 ∨ (listing7_run v o n (listing7_init w test_image ERROR_HANDLER_ADDRESS)).pc
          = .line 20)
      ∧ (listing7_run v o n (listing7_init w test_image ERROR_HANDLER_ADDRESS)).pc ≠ .line 23
      ∧ (listing7_run v o n (listing7_init w test_image ERROR_HANDLER_ADDRESS)).pc
          ≠ .line 24 := by
  have h7 : listing7_step v o
      (listing7_run v o 7 (listing7_init w test_image ERROR_HANDLER_ADDRESS))
      = listing7_run v o 7 (listing7_init w test_image ERROR_HANDLER_ADDRESS) := by
    simp [listing7_run, listing7_step, listing7_init, hfail, STATUS_FAIL_ne_OK]
  rcases Nat.lt_or_ge n 7 with hlt | hge
  · interval_cases n <;>
      simp [listing7_run, listing7_step, listing7_init, hfail, STATUS_FAIL_ne_OK, erases, jumps,
        bootCalls]
  · rw [listing7_run_rest _ _ _ 7 n h7 hge]
    have h3 : ¬ n < 3 := by omega
    have h7' : ¬ n < 7 := by omega
    simp [listing7_run, listing7_step, listing7_init, hfail, STATUS_FAIL_ne_OK, erases, jumps,
      bootCalls, h3, h7']

/-- The controller of Listing7.c after a status that is neither sentinel. -/
theorem listing7_faulted_path (v : Verifier) (o : Oracle) (w : World)
    (test_image ERROR_HANDLER_ADDRESS : Nat)
    (hok : (v o (delay_random o w) test_image ERROR_HANDLER_ADDRESS).code % UINT_MOD
      ≠ STATUS_OK)
    (hfail : (v o (delay_random o w) test_image ERROR_HANDLER_ADDRESS).code % UINT_MOD
      ≠ STATUS_FAIL) (n : Nat) :
    jumps (listing7_run v o n (listing7_init w test_image ERROR_HANDLER_ADDRESS)).trace = []
      ∧ (listing7_run v o n (listing7_init w test_image ERROR_HANDLER_ADDRESS)).pc ≠ .line 27
      ∧ (listing7_run v o n (listing7_init w test_image ERROR_HANDLER_ADDRESS)).pc ≠ .finished
      ∧ (listing7_run v o n (listing7_init w test_image ERROR_HANDLER_ADDRESS)).pc
          ≠ .transferred
      ∧ (n < 3 ∨ bootCalls (listing7_run v o n
            (listing7_init w test_image ERROR_HANDLER_ADDRESS)).trace
          = [.load_image test_image, .verify_image test_image])
      ∧ (n < 6 ∨ ((listing7_run v o n (listing7_init w test_image ERROR_HANDLER_ADDRESS)).pc
            = .line 24
          ∧ erases (listing7_run v o n
              (listing7_init w test_image ERROR_HANDLER_ADDRESS)).trace = 1)) := by
  have h6 : listing7_step v o
      (listing7_run v o 6 (listing7_init w test_image ERROR_HANDLER_ADDRESS))
      = listing7_run v o 6 (listing7_init w test_image ERROR_HANDLER_ADDRESS) := by
    simp [listing7_run, listing7_step, listing7_init, hok, hfail]
  rcases Nat.lt_or_ge n 6 with hlt | hge
  · interval_cases n <;>
      simp [listing7_run, listing7_step, listing7_init, hok, hfail, erases, jumps, bootCalls]
  · rw [listing7_run_rest _ _ _ 6 n h6 hge]
    have h3 : ¬ n < 3 := by omega
    have h6' : ¬ n < 6 := by omega
    simp [listing7_run, listing7_step, listing7_init, hok, hfail, erases, jumps, bootCalls, h3,
      h6']

/-- The controller of Listing7.c after a status equal to the success code. -/
theorem listing7_verified_path (v : Verifier) (o : Oracle) (w : World)
    (test_image ERROR_HANDLER_ADDRESS : Nat)
    (hok : (v o (delay_random o w) test_image ERROR_HANDLER_ADDRESS).code % UINT_MOD
      = STATUS_OK) (n : Nat) :
    erases (listing7_run v o n (listing7_init w test_image ERROR_HANDLER_ADDRESS)).trace = 0
      ∧ (listing7_run v o n (listing7_init w test_image ERROR_HANDLER_ADDRESS)).pc ≠ .line 23
      ∧ (listing7_run v o n (listing7_init w test_image ERROR_HANDLER_ADDRESS)).pc
          ≠ .line 24 := by
  have h7 : listing7_step v o
      (listing7_run v o 7 (listing7_init w test_image ERROR_HANDLER_ADDRESS))
      = listing7_run v o 7 (listing7_init w test_image ERROR_HANDLER_ADDRESS) := by
    cases hj : o.jump_returns <;> simp [listing7_run, listing7_step, listing7_init, hok, hj]
  rcases Nat.lt_or_ge n 7 with hlt | hge
  · interval_cases n <;> cases hj : o.jump_returns <;>
      simp [listing7_run, listing7_step, listing7_init, hok, hj, erases]
  · rw [listing7_run_rest _ _ _ 7 n h7 hge]
    cases hj : o.jump_returns <;>
      simp [listing7_run, listing7_step, listing7_init, hok, hj, erases]

theorem listing4_run_add (verify : Nat → Int) (o : Oracle) (a b : Nat) (s : Ctl4) :
    listing4_run verify o (a + b) s = listing4_run verify o b (listing4_run verify o a s) := by
  induction a generalizing s with
  | zero => simp [listing4_run]
  | succ a ih => rw [Nat.succ_add]; simp only [listing4_run]; exact ih _

theorem listing4_run_fixed (verify : Nat → Int) (o : Oracle) (s : Ctl4)
    (h : listing4_step verify o s = s) (n : Nat) : listing4_run verify o n s = s := by
  induction n with
  | zero => rfl
  | succ n ih => simp only [listing4_run, h, ih]

/-- Once a run of Listing4.c has come to rest, more statements change nothing. -/
theorem listing4_run_rest (verify : Nat → Int) (o : Oracle) (s : Ctl4) (m n : Nat)
    (h : listing4_step verify o (listing4_run verify o m s) = listing4_run verify o m s)
    (hn : m ≤ n) : listing4_run verify o n s = listing4_run verify o m s := by
  obtain ⟨k, rfl⟩ := Nat.exists_eq_add_of_le hn
  rw [listing4_run_add, listing4_run_fixed verify o _ h]

/-- Listing4.c after a negative result of `verify_image`. -/
theorem listing4_negative_path (verify : Nat → Int) (o : Oracle) (boot_image : Nat)
    (hneg : verify boot_image < 0) (n : Nat) :
    jumps (listing4_run verify o n (listing4_init boot_image)).trace = []
      ∧ (n < 2 ∨ (listing4_run verify o n (listing4_init boot_image)).pc = .line 9) := by
  have h2 : listing4_step verify o (listing4_run verify o 2 (listing4_init boot_image))
      = listing4_run verify o 2 (listing4_init boot_image) := by
    simp [listing4_run, listing4_step, listing4_init, hneg]
  rcases Nat.lt_or_ge n 2 with hlt | hge
  · interval_cases n <;> simp [listing4_run, listing4_step, listing4_init, hneg, jumps]
  · rw [listing4_run_rest _ _ _ 2 n h2 hge]
    have h2' : ¬ n < 2 := by omega
    simp [listing4_run, listing4_step, listing4_init, hneg, jumps, h2']

/-- Listing4.c after a non-negative result of `verify_image`. -/
theorem listing4_nonneg_path (verify : Nat → Int) (o : Oracle) (boot_image : Nat)
    (hpos : 0 ≤ verify boot_image) (n : Nat) (hn : 3 ≤ n) :
    jumps (listing4_run verify o n (listing4_init boot_image)).trace = [boot_image]
      ∧ (listing4_run verify o n (listing4_init boot_image)).pc ≠ .line 9 := by
  have hneg : ¬ verify boot_image < 0 := by omega
  have h3 : listing4_step verify o (listing4_run verify o 3 (listing4_init boot_image))
      = listing4_run verify o 3 (listing4_init boot_image) := by
    cases hj : o.jump_returns <;> simp [listing4_run, listing4_step, listing4_init, hneg, hj]
  rw [listing4_run_rest _ _ _ 3 n h3 hn]
  cases hj : o.jump_returns <;>
    simp [listing4_run, listing4_step, listing4_init, hneg, jumps, hj]

/-- When line 23 of Listing8.c is reached, the value stored through `boot_ptr` is
the last value of `possible_ptr`. -/
theorem possible_ptr_steps_stored (o : Oracle) (w : World) (image boot : Nat)
    (h : (verify_image o w image boot).stored = true) :
    (possible_ptr_steps o w image).getLast? = some (verify_image o w image boot).boot := by
  revert h
  simp only [verify_image, possible_ptr_steps]
  split_ifs <;> simp_all

/-- Two forced conditionals cannot cover the three abort checks. -/
theorem forcedCount_le_two (g : Nat → Bool) (h : forcedCount g ≤ 2) :
    g 15 = false ∨ g 19 = false ∨ g 22 = false := by
  by_contra hc
  simp only [not_or, Bool.not_eq_false] at hc
  obtain ⟨h15, h19, h22⟩ := hc
  revert h
  simp only [forcedCount, checkLines, List.filter, h15, h19, h22]
  cases g 16 <;> cases g 18 <;> cases g 21 <;> cases g 23 <;> cases g 24 <;> simp

/-- On a mismatch an abort check that is not forced returns the failure code. -/
theorem forced_mismatch_abort (g : Nat → Bool) (o : Oracle) (w : World) (image boot : Nat)
    (hne : o.calculate_hash image % UINT_MOD ≠ o.get_known_hash w.knownCalls % UINT_MOD)
    (hg : g 15 = false ∨ g 19 = false ∨ g 22 = false) :
    (verify_image_forced g o w image boot).code = STATUS_FAIL
      ∧ (verify_image_forced g o w image boot).stored = false
      ∧ (verify_image_forced g o w image boot).boot = boot := by
  have hne' : ¬ o.get_known_hash w.knownCalls % UINT_MOD = o.calculate_hash image % UINT_MOD :=
    fun h => hne h.symm
  simp only [verify_image_forced, call_get_known_hash, call_calculate_hash, forced]
  rcases hg with h | h | h <;> cases h15 : g 15 <;> cases h19 : g 19 <;> cases h22 : g 22 <;>
    simp_all

/-- Oracle calls made by one run of the instrumented routine. -/
theorem verify_image_forced_calls (g : Nat → Bool) (o : Oracle) (w : World)
    (image boot : Nat) :
    (verify_image_forced g o w image boot).world.hashCalls = w.hashCalls + 1
      ∧ (verify_image_forced g o w image boot).world.knownCalls = w.knownCalls + 2 := by
  simp only [verify_image_forced]
  split_ifs <;>
    exact ⟨by simp only [call_get_known_hash, call_calculate_hash, delay_random],
      by simp only [call_get_known_hash, call_calculate_hash, delay_random]⟩

/-! ## Claims -/

/-- C1: when `get_known_hash` returns the same value on both of its calls and
`calculate_hash(image)` equals it, `verify_image` returns `0xDEADF00D` and stores
into `*boot_ptr` exactly the address of the image. -/
theorem C1_verify_match (o : Oracle) (w : World) (image boot : Nat)
    (hsame : o.get_known_hash w.knownCalls % UINT_MOD
      = o.get_known_hash (w.knownCalls + 1) % UINT_MOD)
    (hmatch : o.calculate_hash image % UINT_MOD = o.get_known_hash w.knownCalls % UINT_MOD) :
    (verify_image o w image boot).code = STATUS_OK
      ∧ (verify_image o w image boot).stored = true
      ∧ (verify_image o w image boot).boot = image := by
  simp only [verify_image, call_get_known_hash, call_calculate_hash, hmatch, ← hsame]
  simp [unmask_all]

theorem C1_verify_match_witness :
    (verify_image (sampleOracle 0x1234) World.start 0x08004000 0x08000400).code = STATUS_OK
      ∧ (verify_image (sampleOracle 0x1234) World.start 0x08004000 0x08000400).stored = true
      ∧ (verify_image (sampleOracle 0x1234) World.start 0x08004000 0x08000400).boot
          = 0x08004000 :=
  C1_verify_match (sampleOracle 0x1234) World.start 0x08004000 0x08000400 rfl rfl

/-- C2: when `calculate_hash(image)` differs from `get_known_hash()`,
`verify_image` returns `0xF4110911` and does not store through `boot_ptr`, so
`*boot_ptr` keeps the value it had before the call. -/
theorem C2_verify_mismatch (o : Oracle) (w : World) (image boot : Nat)
    (hne : o.calculate_hash image % UINT_MOD ≠ o.get_known_hash w.knownCalls % UINT_MOD) :
    (verify_image o w image boot).code = STATUS_FAIL
      ∧ (verify_image o w image boot).stored = false
      ∧ (verify_image o w image boot).boot = boot := by
  have hne' : ¬ o.get_known_hash w.knownCalls % UINT_MOD = o.calculate_hash image % UINT_MOD :=
    fun h => hne h.symm
  simp [verify_image, call_get_known_hash, call_calculate_hash, hne']

theorem C2_verify_mismatch_witness :
    (verify_image (mismatchOracle 0x1234 0x4321) World.start 0x08004000 0x08000400).code
        = STATUS_FAIL
      ∧ (verify_image (mismatchOracle 0x1234 0x4321) World.start 0x08004000 0x08000400).stored
        = false
      ∧ (verify_image (mismatchOracle 0x1234 0x4321) World.start 0x08004000 0x08000400).boot
        = 0x08000400 :=
  C2_verify_mismatch (mismatchOracle 0x1234 0x4321) World.start 0x08004000 0x08000400
    (by decide)

/-- C3: on a matching image and without faults, the controller of Listing7.c
linked with `verify_image` of Listing8.c takes the `status == 0xDEADF00D` branch,
calls `jump_to_image` exactly once, with the address held by `test_image`, and
never calls `erase_sensitive_data`. -/
theorem C3_controller_verified (o : Oracle) (w : World) (test_image ERROR_HANDLER_ADDRESS : Nat)
    (hsame : o.get_known_hash w.knownCalls % UINT_MOD
      = o.get_known_hash (w.knownCalls + 1) % UINT_MOD)
    (hmatch : o.calculate_hash test_image % UINT_MOD
      = o.get_known_hash w.knownCalls % UINT_MOD) :
    (listing7_run verify_image o 4 (listing7_init w test_image ERROR_HANDLER_ADDRESS)).pc
        = .line 14
      ∧ (∀ n, 6 ≤ n →
          jumps (listing7_run verify_image o n
            (listing7_init w test_image ERROR_HANDLER_ADDRESS)).trace = [test_image])
      ∧ (∀ n, erases (listing7_run verify_image o n
            (listing7_init w test_image ERROR_HANDLER_ADDRESS)).trace = 0) := by
  have hv := verify_image_of_match o (delay_random o w) test_image ERROR_HANDLER_ADDRESS
    (by simpa [delay_random] using hsame) (by simpa [delay_random] using hmatch)
  have h7 : listing7_step verify_image o
      (listing7_run verify_image o 7 (listing7_init w test_image ERROR_HANDLER_ADDRESS))
      = listing7_run verify_image o 7 (listing7_init w test_image ERROR_HANDLER_ADDRESS) := by
    cases hj : o.jump_returns <;>
      simp [listing7_run, listing7_step, listing7_init, hv, STATUS_OK_lt, hj]
  refine ⟨?_, ?_, ?_⟩
  · simp [listing7_run, listing7_step, listing7_init, hv, STATUS_OK_lt]
  · intro n hn
    rcases Nat.lt_or_ge n 7 with hlt | hge
    · have : n = 6 := by omega
      subst this
      simp [listing7_run, listing7_step, listing7_init, hv, STATUS_OK_lt, jumps]
    · rw [listing7_run_rest _ _ _ 7 n h7 hge]
      cases hj : o.jump_returns <;>
        simp [listing7_run, listing7_step, listing7_init, hv, STATUS_OK_lt, hj, jumps]
  · intro n
    rcases Nat.lt_or_ge n 7 with hlt | hge
    · interval_cases n <;>
        cases hj : o.jump_returns <;>
        simp [listing7_run, listing7_step, listing7_init, hv, STATUS_OK_lt, hj, erases]
    · rw [listing7_run_rest _ _ _ 7 n h7 hge]
      cases hj : o.jump_returns <;>
        simp [listing7_run, listing7_step, listing7_init, hv, STATUS_OK_lt, hj, erases]

theorem C3_controller_verified_witness :
    (listing7_run verify_image (sampleOracle 0x1234) 4
        (listing7_init World.start 0x08004000 0x08000400)).pc = .line 14
      ∧ jumps (listing7_run verify_image (sampleOracle 0x1234) 6
        (listing7_init World.start 0x08004000 0x08000400)).trace = [0x08004000]
      ∧ erases (listing7_run verify_image (sampleOracle 0x1234) 9
        (listing7_init World.start 0x08004000 0x08000400)).trace = 0 :=
  ⟨(C3_controller_verified (sampleOracle 0x1234) World.start 0x08004000 0x08000400 rfl rfl).1,
   (C3_controller_verified (sampleOracle 0x1234) World.start 0x08004000 0x08000400 rfl rfl).2.1
      6 (Nat.le_refl 6),
   (C3_controller_verified (sampleOracle 0x1234) World.start 0x08004000 0x08000400 rfl rfl).2.2
      9⟩

/-- C4: on an image whose hash differs from the known hash, the controller of
Listing7.c linked with `verify_image` of Listing8.c takes the
`status == 0xF4110911` branch and comes to rest in the `while(1)` of line 20;
neither `erase_sensitive_data` nor `jump_to_image` is ever called. -/
theorem C4_controller_rejected (o : Oracle) (w : World) (test_image ERROR_HANDLER_ADDRESS : Nat)
    (hne : o.calculate_hash test_image % UINT_MOD ≠ o.get_known_hash w.knownCalls % UINT_MOD) :
    (listing7_run verify_image o 5 (listing7_init w test_image ERROR_HANDLER_ADDRESS)).pc
        = .line 18
      ∧ (∀ n, 7 ≤ n →
          (listing7_run verify_image o n
            (listing7_init w test_image ERROR_HANDLER_ADDRESS)).pc = .line 20
          ∧ (listing7_run verify_image o n
            (listing7_init w test_image ERROR_HANDLER_ADDRESS)).status = STATUS_FAIL)
      ∧ (∀ n, erases (listing7_run verify_image o n
            (listing7_init w test_image ERROR_HANDLER_ADDRESS)).trace = 0
          ∧ jumps (listing7_run verify_image o n
            (listing7_init w test_image ERROR_HANDLER_ADDRESS)).trace = []) := by
  have hv := verify_image_of_mismatch o (delay_random o w) test_image ERROR_HANDLER_ADDRESS
    (by simpa [delay_random] using hne)
  have h7 : listing7_step verify_image o
      (listing7_run verify_image o 7 (listing7_init w test_image ERROR_HANDLER_ADDRESS))
      = listing7_run verify_image o 7 (listing7_init w test_image ERROR_HANDLER_ADDRESS) := by
    simp [listing7_run, listing7_step, listing7_init, hv, STATUS_FAIL_lt, STATUS_FAIL_ne_OK]
  refine ⟨?_, ?_, ?_⟩
  · simp [listing7_run, listing7_step, listing7_init, hv, STATUS_FAIL_lt, STATUS_FAIL_ne_OK]
  · intro n hn
    rw [listing7_run_rest _ _ _ 7 n h7 hn]
    simp [listing7_run, listing7_step, listing7_init, hv, STATUS_FAIL_lt, STATUS_FAIL_ne_OK]
  · intro n
    rcases Nat.lt_or_ge n 7 with hlt | hge
    · interval_cases n <;>
        simp [listing7_run, listing7_step, listing7_init, hv, STATUS_FAIL_lt, STATUS_FAIL_ne_OK,
          erases, jumps]
    · rw [listing7_run_rest _ _ _ 7 n h7 hge]
      simp [listing7_run, listing7_step, listing7_init, hv, STATUS_FAIL_lt, STATUS_FAIL_ne_OK,
        erases, jumps]

theorem C4_controller_rejected_witness :
    (listing7_run verify_image (mismatchOracle 0x1234 0x4321) 5
        (listing7_init World.start 0x08004000 0x08000400)).pc = .line 18
      ∧ (listing7_run verify_image (mismatchOracle 0x1234 0x4321) 7
        (listing7_init World.start 0x08004000 0x08000400)).pc = .line 20
      ∧ erases (listing7_run verify_image (mismatchOracle 0x1234 0x4321) 9
        (listing7_init World.start 0x08004000 0x08000400)).trace = 0
      ∧ jumps (listing7_run verify_image (mismatchOracle 0x1234 0x4321) 9
        (listing7_init World.start 0x08004000 0x08000400)).trace = [] :=
  ⟨(C4_controller_rejected (mismatchOracle 0x1234 0x4321) World.start 0x08004000 0x08000400
      (by decide)).1,
   ((C4_controller_rejected (mismatchOracle 0x1234 0x4321) World.start 0x08004000 0x08000400
      (by decide)).2.1 7 (Nat.le_refl 7)).1,
   ((C4_controller_rejected (mismatchOracle 0x1234 0x4321) World.start 0x08004000 0x08000400
      (by decide)).2.2 9).1,
   ((C4_controller_rejected (mismatchOracle 0x1234 0x4321) World.start 0x08004000 0x08000400
      (by decide)).2.2 9).2⟩

/-- C5: whatever verifier the controller of Listing7.c is linked with, a status
other than `0xDEADF00D` and `0xF4110911` sends it to the final `else` branch:
`erase_sensitive_data` is called once, the controller comes to rest in the
`while(1)` of line 24, and `jump_to_image` is never called. The statuses
`0x00000000`, `0xFFFFFFFF` and every value one bit away from a sentinel are
such statuses. -/
theorem C5_controller_faulted (v : Verifier) (o : Oracle) (w : World)
    (test_image ERROR_HANDLER_ADDRESS : Nat)
    (hok : (v o (delay_random o w) test_image ERROR_HANDLER_ADDRESS).code % UINT_MOD
      ≠ STATUS_OK)
    (hfail : (v o (delay_random o w) test_image ERROR_HANDLER_ADDRESS).code % UINT_MOD
      ≠ STATUS_FAIL) :
    (listing7_run v o 5 (listing7_init w test_image ERROR_HANDLER_ADDRESS)).pc = .line 23
      ∧ (∀ n, 6 ≤ n →
          (listing7_run v o n (listing7_init w test_image ERROR_HANDLER_ADDRESS)).pc = .line 24
          ∧ erases (listing7_run v o n
              (listing7_init w test_image ERROR_HANDLER_ADDRESS)).trace = 1)
      ∧ (∀ n, jumps (listing7_run v o n
            (listing7_init w test_image ERROR_HANDLER_ADDRESS)).trace = [])
      ∧ ((0 : Nat) ≠ STATUS_OK ∧ (0 : Nat) ≠ STATUS_FAIL
          ∧ 0xFFFFFFFF ≠ STATUS_OK ∧ 0xFFFFFFFF ≠ STATUS_FAIL)
      ∧ (∀ i, i < 32 →
          (STATUS_OK ^^^ (1 <<< i) ≠ STATUS_OK ∧ STATUS_OK ^^^ (1 <<< i) ≠ STATUS_FAIL)
          ∧ (STATUS_FAIL ^^^ (1 <<< i) ≠ STATUS_OK
            ∧ STATUS_FAIL ^^^ (1 <<< i) ≠ STATUS_FAIL)) := by
  have h6 : listing7_step v o
      (listing7_run v o 6 (listing7_init w test_image ERROR_HANDLER_ADDRESS))
      = listing7_run v o 6 (listing7_init w test_image ERROR_HANDLER_ADDRESS) := by
    simp [listing7_run, listing7_step, listing7_init, hok, hfail]
  refine ⟨?_, ?_, ?_, by decide, one_bit_off_sentinels⟩
  · simp [listing7_run, listing7_step, listing7_init, hok, hfail]
  · intro n hn
    rw [listing7_run_rest _ _ _ 6 n h6 hn]
    simp [listing7_run, listing7_step, listing7_init, hok, hfail, erases]
  · intro n
    rcases Nat.lt_or_ge n 6 with hlt | hge
    · interval_cases n <;>
        simp [listing7_run, listing7_step, listing7_init, hok, hfail, jumps]
    · rw [listing7_run_rest _ _ _ 6 n h6 hge]
      simp [listing7_run, listing7_step, listing7_init, hok, hfail, jumps]

theorem C5_controller_faulted_witness :
    (listing7_run (constVerifier 0xFFFFFFFF) (sampleOracle 0x1234) 5
        (listing7_init World.start 0x08004000 0x08000400)).pc = .line 23
      ∧ (listing7_run (constVerifier 0xFFFFFFFF) (sampleOracle 0x1234) 6
        (listing7_init World.start 0x08004000 0x08000400)).pc = .line 24
      ∧ erases (listing7_run (constVerifier 0xFFFFFFFF) (sampleOracle 0x1234) 6
        (listing7_init World.start 0x08004000 0x08000400)).trace = 1
      ∧ jumps (listing7_run (constVerifier 0xFFFFFFFF) (sampleOracle 0x1234) 9
        (listing7_init World.start 0x08004000 0x08000400)).trace = [] :=
  ⟨(C5_controller_faulted (constVerifier 0xFFFFFFFF) (sampleOracle 0x1234) World.start
      0x08004000 0x08000400 (by decide) (by decide)).1,
   ((C5_controller_faulted (constVerifier 0xFFFFFFFF) (sampleOracle 0x1234) World.start
      0x08004000 0x08000400 (by decide) (by decide)).2.1 6 (Nat.le_refl 6)).1,
   ((C5_controller_faulted (constVerifier 0xFFFFFFFF) (sampleOracle 0x1234) World.start
      0x08004000 0x08000400 (by decide) (by decide)).2.1 6 (Nat.le_refl 6)).2,
   (C5_controller_faulted (constVerifier 0xFFFFFFFF) (sampleOracle 0x1234) World.start
      0x08004000 0x08000400 (by decide) (by decide)).2.2.1 9⟩

/-- C6 (amended): with `get_known_hash` returning one non-zero value on both
calls, forcing exactly one conditional of `verify_image` never yields the success
code together with a store of the true image address. The run either aborts with
`0xF4110911` without storing, or returns `0xDEADF00D` with a stored target that
differs from the image address, or returns `0xDEADF00D` with `*boot_ptr` left
unwritten (line 23 forced), or returns the default `0xFFFFFFFF` (line 24 forced). -/
theorem C6_single_fault (o : Oracle) (w : World) (image boot l : Nat)
    (hsame : o.get_known_hash w.knownCalls % UINT_MOD
      = o.get_known_hash (w.knownCalls + 1) % UINT_MOD)
    (hk : o.get_known_hash w.knownCalls % UINT_MOD ≠ 0)
    (hl : l ∈ checkLines) :
    ¬ ((verify_image_forced (only l) o w image boot).code = STATUS_OK
        ∧ (verify_image_forced (only l) o w image boot).stored = true
        ∧ (verify_image_forced (only l) o w image boot).boot = image)
      ∧ (((verify_image_forced (only l) o w image boot).code = STATUS_FAIL
          ∧ (verify_image_forced (only l) o w image boot).stored = false)
        ∨ ((verify_image_forced (only l) o w image boot).code = STATUS_OK
          ∧ (verify_image_forced (only l) o w image boot).stored = true
          ∧ (verify_image_forced (only l) o w image boot).boot ≠ image)
        ∨ (l = 23
          ∧ (verify_image_forced (only l) o w image boot).code = STATUS_OK
          ∧ (verify_image_forced (only l) o w image boot).stored = false)
        ∨ (l = 24
          ∧ (verify_image_forced (only l) o w image boot).code = STATUS_DEFAULT)) := by
  have h14 : image ^^^ (1 <<< 14) ≠ image := xor_ne_self image _ (by decide)
  have h15 : image ^^^ (1 <<< 15) ≠ image := xor_ne_self image _ (by decide)
  have hkk : image ^^^ (o.get_known_hash w.knownCalls % UINT_MOD) ≠ image :=
    xor_ne_self image _ hk
  by_cases hmatch :
      o.calculate_hash image % UINT_MOD = o.get_known_hash w.knownCalls % UINT_MOD
  · rcases forced_match o w image boot l hsame hmatch hl with
      ⟨_, hc, hs, _, _⟩ | ⟨_, hc, hs, hb, _⟩ | ⟨_, hc, hs, hb, _⟩ | ⟨_, hc, hs, hb, _⟩
        | ⟨h23, hc, hs, _, _⟩ | ⟨h24, hc, hs, _, _⟩
    · exact ⟨fun h => by rw [hs] at h; exact Bool.false_ne_true h.2.1, Or.inl ⟨hc, hs⟩⟩
    · exact ⟨fun h => h14 (hb ▸ h.2.2), Or.inr (Or.inl ⟨hc, hs, hb ▸ h14⟩)⟩
    · exact ⟨fun h => h15 (hb ▸ h.2.2), Or.inr (Or.inl ⟨hc, hs, hb ▸ h15⟩)⟩
    · exact ⟨fun h => hkk (hb ▸ h.2.2), Or.inr (Or.inl ⟨hc, hs, hb ▸ hkk⟩)⟩
    · exact ⟨fun h => by rw [hs] at h; exact Bool.false_ne_true h.2.1,
        Or.inr (Or.inr (Or.inl ⟨h23, hc, hs⟩))⟩
    · exact ⟨fun h => STATUS_DEFAULT_ne_OK (hc ▸ h.1), Or.inr (Or.inr (Or.inr ⟨h24, hc⟩))⟩
  · obtain ⟨hc, hs, _, _⟩ := forced_mismatch o w image boot l hmatch hl
    exact ⟨fun h => by rw [hs] at h; exact Bool.false_ne_true h.2.1, Or.inl ⟨hc, hs⟩⟩

theorem C6_single_fault_witness :
    ¬ ((verify_image_forced (only 21) (sampleOracle 0x1234) World.start 0x08004000
          0x08000400).code = STATUS_OK
        ∧ (verify_image_forced (only 21) (sampleOracle 0x1234) World.start 0x08004000
          0x08000400).stored = true
        ∧ (verify_image_forced (only 21) (sampleOracle 0x1234) World.start 0x08004000
          0x08000400).boot = 0x08004000) :=
  (C6_single_fault (sampleOracle 0x1234) World.start 0x08004000 0x08000400 21 rfl
    (by decide) (by decide)).1

/-- C6 as stated fails. With a known hash of zero, forcing line 21 yields the
success code and stores the true image address. With any matching image, forcing
line 23 yields the success code with nothing stored, and forcing line 24 yields
`0xFFFFFFFF` with the true address stored: neither the failure code nor a
corrupted target. -/
theorem C6_single_fault_counterexample :
    ((verify_image_forced (only 21) (sampleOracle 0) World.start 0x08004000 0x08000400).code
        = 0xDEADF00D
      ∧ (verify_image_forced (only 21) (sampleOracle 0) World.start 0x08004000
          0x08000400).stored = true
      ∧ (verify_image_forced (only 21) (sampleOracle 0) World.start 0x08004000
          0x08000400).boot = 0x08004000)
    ∧ ((verify_image_forced (only 23) (sampleOracle 0x1234) World.start 0x08004000
          0x08000400).code = 0xDEADF00D
      ∧ (verify_image_forced (only 23) (sampleOracle 0x1234) World.start 0x08004000
          0x08000400).stored = false)
    ∧ ((verify_image_forced (only 24) (sampleOracle 0x1234) World.start 0x08004000
          0x08000400).code = 0xFFFFFFFF
      ∧ (verify_image_forced (only 24) (sampleOracle 0x1234) World.start 0x08004000
          0x08000400).code ≠ 0xF4110911
      ∧ (verify_image_forced (only 24) (sampleOracle 0x1234) World.start 0x08004000
          0x08000400).stored = true
      ∧ (verify_image_forced (only 24) (sampleOracle 0x1234) World.start 0x08004000
          0x08000400).boot = 0x08004000) := by
  decide

/-- C7 (amended): whichever conditionals are forced, `verify_image` leaves through
one of five returns. The abort returns of lines 15, 19 and 22 yield `0xF4110911`
and store nothing; the return of line 24 yields `0xDEADF00D`; the default return
of line 25 yields `0xFFFFFFFF`, the value of `-1` as `unsigned int`, which is
neither the failure code nor the success code. -/
theorem C7_exit_codes (g : Nat → Bool) (o : Oracle) (w : World) (image boot : Nat) :
    ((((verify_image_forced g o w image boot).exit = 15
          ∨ (verify_image_forced g o w image boot).exit = 19
          ∨ (verify_image_forced g o w image boot).exit = 22)
        ∧ (verify_image_forced g o w image boot).code = STATUS_FAIL
        ∧ (verify_image_forced g o w image boot).stored = false)
      ∨ ((verify_image_forced g o w image boot).exit = 24
        ∧ (verify_image_forced g o w image boot).code = STATUS_OK)
      ∨ ((verify_image_forced g o w image boot).exit = 25
        ∧ (verify_image_forced g o w image boot).code = STATUS_DEFAULT))
    ∧ STATUS_DEFAULT = 0xFFFFFFFF ∧ STATUS_DEFAULT ≠ STATUS_FAIL
    ∧ STATUS_DEFAULT ≠ STATUS_OK := by
  refine ⟨?_, by decide, STATUS_DEFAULT_ne_FAIL, STATUS_DEFAULT_ne_OK⟩
  simp only [verify_image_forced]
  split_ifs <;> simp

/-- C7 as stated fails: with the check of line 24 forced on a matching image,
execution falls through to the default return of line 25, and the code returned
there is `0xFFFFFFFF`, not the failure code `0xF4110911`. -/
theorem C7_exit_codes_counterexample :
    (verify_image_forced (only 24) (sampleOracle 0x1234) World.start 0x08004000
        0x08000400).exit = 25
      ∧ (verify_image_forced (only 24) (sampleOracle 0x1234) World.start 0x08004000
        0x08000400).code = 0xFFFFFFFF
      ∧ (verify_image_forced (only 24) (sampleOracle 0x1234) World.start 0x08004000
        0x08000400).code ≠ 0xF4110911 := by
  decide

/-- C8: the success code `0xDEADF00D` and the failure code `0xF4110911` differ in
17 of their 32 bit positions, which is at least 16, so flipping one bit of either
code never gives the other. -/
theorem C8_hamming_distance :
    hammingDistance 32 STATUS_OK STATUS_FAIL = 17
      ∧ 32 / 2 ≤ hammingDistance 32 STATUS_OK STATUS_FAIL
      ∧ STATUS_OK < 2 ^ 32 ∧ STATUS_FAIL < 2 ^ 32
      ∧ (∀ i, i < 32 → STATUS_OK ^^^ (1 <<< i) ≠ STATUS_FAIL)
      ∧ (∀ i, i < 32 → STATUS_FAIL ^^^ (1 <<< i) ≠ STATUS_OK) := by
  refine ⟨by decide, by decide, by decide, by decide, ?_, ?_⟩
  · intro i hi
    exact (one_bit_off_sentinels i hi).1.2
  · intro i hi
    exact (one_bit_off_sentinels i hi).2.1

/-- C9 (amended): on a matching image whose known hash is not zero, leaving out any
single one of the three unmasking steps (lines 16, 18, 21) makes `verify_image`
store a target different from the true image address. -/
theorem C9_fail_corrupt (o : Oracle) (w : World) (image boot l : Nat)
    (hsame : o.get_known_hash w.knownCalls % UINT_MOD
      = o.get_known_hash (w.knownCalls + 1) % UINT_MOD)
    (hmatch : o.calculate_hash image % UINT_MOD = o.get_known_hash w.knownCalls % UINT_MOD)
    (hk : o.get_known_hash w.knownCalls % UINT_MOD ≠ 0)
    (hl : l = 16 ∨ l = 18 ∨ l = 21) :
    (verify_image_forced (only l) o w image boot).stored = true
      ∧ (verify_image_forced (only l) o w image boot).boot ≠ image := by
  have h14 : image ^^^ (1 <<< 14) ≠ image := xor_ne_self image _ (by decide)
  have h15 : image ^^^ (1 <<< 15) ≠ image := xor_ne_self image _ (by decide)
  have hkk : image ^^^ (o.get_known_hash w.knownCalls % UINT_MOD) ≠ image :=
    xor_ne_self image _ hk
  have hmem : l ∈ checkLines := by
    rcases hl with rfl | rfl | rfl <;> decide
  rcases forced_match o w image boot l hsame hmatch hmem with
    ⟨h, _⟩ | ⟨_, _, hs, hb, _⟩ | ⟨_, _, hs, hb, _⟩ | ⟨_, _, hs, hb, _⟩ | ⟨h, _⟩ | ⟨h, _⟩
  · omega
  · exact ⟨hs, hb ▸ h14⟩
  · exact ⟨hs, hb ▸ h15⟩
  · exact ⟨hs, hb ▸ hkk⟩
  · omega
  · omega

theorem C9_fail_corrupt_witness :
    (verify_image_forced (only 16) (sampleOracle 0x1234) World.start 0x08004000
        0x08000400).stored = true
      ∧ (verify_image_forced (only 16) (sampleOracle 0x1234) World.start 0x08004000
        0x08000400).boot ≠ 0x08004000 :=
  C9_fail_corrupt (sampleOracle 0x1234) World.start 0x08004000 0x08000400 16 rfl rfl
    (by decide) (Or.inl rfl)

/-- C9 as stated fails: when the known hash is zero, leaving out the third
unmasking step (line 21) still stores the true image address. -/
theorem C9_fail_corrupt_counterexample :
    (verify_image_forced (only 21) (sampleOracle 0) World.start 0x08004000 0x08000400).stored
        = true
      ∧ (verify_image_forced (only 21) (sampleOracle 0) World.start 0x08004000
        0x08000400).boot = 0x08004000 := by
  decide

/-- C10: the code returned by `verify_image` depends only on the two digests.
Two calls on the same image, with oracles that return the same known hash on
every call and the same image digest, return the same code, whatever the call
bookkeeping, the delays and the content of `*boot_ptr` before each call. -/
theorem C10_deterministic (o₁ o₂ : Oracle) (w₁ w₂ : World) (image boot₁ boot₂ : Nat)
    (hknown : ∀ n m, o₁.get_known_hash n = o₂.get_known_hash m)
    (hhash : o₁.calculate_hash image = o₂.calculate_hash image) :
    (verify_image o₁ w₁ image boot₁).code = (verify_image o₂ w₂ image boot₂).code := by
  have e₁ : o₁.get_known_hash w₁.knownCalls = o₂.get_known_hash w₂.knownCalls := hknown _ _
  simp only [verify_image, call_get_known_hash, call_calculate_hash, hhash, e₁]
  split_ifs <;> rfl

theorem C10_deterministic_witness :
    (verify_image (sampleOracle 0x1234) World.start 0x08004000 0x08000400).code
      = (verify_image (sampleOracle 0x1234)
          (verify_image (sampleOracle 0x1234) World.start 0x08004000 0x08000400).world
          0x08004000
          (verify_image (sampleOracle 0x1234) World.start 0x08004000 0x08000400).boot).code :=
  C10_deterministic (sampleOracle 0x1234) (sampleOracle 0x1234) World.start
    (verify_image (sampleOracle 0x1234) World.start 0x08004000 0x08000400).world
    0x08004000 0x08000400
    (verify_image (sampleOracle 0x1234) World.start 0x08004000 0x08000400).boot
    (fun _ _ => rfl) rfl

/-- C11 (amended): in the controller of Listing7.c, `erase_sensitive_data` is
called, exactly once, on the path taken for a status that is neither sentinel,
which ends in the halt of line 24. On the path taken for the failure code the
controller sets `test_image` and `boot_image` to `NULL` and halts on line 20
without calling `erase_sensitive_data`; on the success path it is not called
either. -/
theorem C11_erase_paths (v : Verifier) (o : Oracle) (w : World)
    (test_image ERROR_HANDLER_ADDRESS n : Nat) (hn : 7 ≤ n) :
    ((v o (delay_random o w) test_image ERROR_HANDLER_ADDRESS).code % UINT_MOD = STATUS_OK
        ∧ erases (listing7_run v o n
            (listing7_init w test_image ERROR_HANDLER_ADDRESS)).trace = 0)
      ∨ ((v o (delay_random o w) test_image ERROR_HANDLER_ADDRESS).code % UINT_MOD
          = STATUS_FAIL
        ∧ (listing7_run v o n (listing7_init w test_image ERROR_HANDLER_ADDRESS)).pc = .line 20
        ∧ (listing7_run v o n (listing7_init w test_image ERROR_HANDLER_ADDRESS)).test_image
            = NULL
        ∧ (listing7_run v o n (listing7_init w test_image ERROR_HANDLER_ADDRESS)).boot_image
            = NULL
        ∧ erases (listing7_run v o n
            (listing7_init w test_image ERROR_HANDLER_ADDRESS)).trace = 0)
      ∨ ((v o (delay_random o w) test_image ERROR_HANDLER_ADDRESS).code % UINT_MOD
          ≠ STATUS_OK
        ∧ (v o (delay_random o w) test_image ERROR_HANDLER_ADDRESS).code % UINT_MOD
          ≠ STATUS_FAIL
        ∧ (listing7_run v o n (listing7_init w test_image ERROR_HANDLER_ADDRESS)).pc = .line 24
        ∧ erases (listing7_run v o n
            (listing7_init w test_image ERROR_HANDLER_ADDRESS)).trace = 1) := by
  by_cases hok : (v o (delay_random o w) test_image ERROR_HANDLER_ADDRESS).code % UINT_MOD
      = STATUS_OK
  · exact Or.inl ⟨hok, (listing7_verified_path v o w test_image ERROR_HANDLER_ADDRESS hok n).1⟩
  · by_cases hfail : (v o (delay_random o w) test_image ERROR_HANDLER_ADDRESS).code % UINT_MOD
        = STATUS_FAIL
    · obtain ⟨he, _, hnull, _, _, _, _, hpc, _, _⟩ :=
        listing7_rejected_path v o w test_image ERROR_HANDLER_ADDRESS hfail n
      have hpc' := hpc.resolve_left (by omega)
      have hnull' := hnull.resolve_left (fun h => h hpc')
      exact Or.inr (Or.inl ⟨hfail, hpc', hnull'.1, hnull'.2, he⟩)
    · obtain ⟨_, _, _, _, _, h24⟩ :=
        listing7_faulted_path v o w test_image ERROR_HANDLER_ADDRESS hok hfail n
      have h24' := h24.resolve_left (by omega)
      exact Or.inr (Or.inr ⟨hok, hfail, h24'.1, h24'.2⟩)

theorem C11_erase_paths_witness :
    ((constVerifier 0 (sampleOracle 0x1234) (delay_random (sampleOracle 0x1234) World.start)
          0x08004000 0x08000400).code % UINT_MOD = STATUS_OK
        ∧ erases (listing7_run (constVerifier 0) (sampleOracle 0x1234) 7
            (listing7_init World.start 0x08004000 0x08000400)).trace = 0)
      ∨ ((constVerifier 0 (sampleOracle 0x1234) (delay_random (sampleOracle 0x1234) World.start)
          0x08004000 0x08000400).code % UINT_MOD = STATUS_FAIL
        ∧ (listing7_run (constVerifier 0) (sampleOracle 0x1234) 7
            (listing7_init World.start 0x08004000 0x08000400)).pc = .line 20
        ∧ (listing7_run (constVerifier 0) (sampleOracle 0x1234) 7
            (listing7_init World.start 0x08004000 0x08000400)).test_image = NULL
        ∧ (listing7_run (constVerifier 0) (sampleOracle 0x1234) 7
            (listing7_init World.start 0x08004000 0x08000400)).boot_image = NULL
        ∧ erases (listing7_run (constVerifier 0) (sampleOracle 0x1234) 7
            (listing7_init World.start 0x08004000 0x08000400)).trace = 0)
      ∨ ((constVerifier 0 (sampleOracle 0x1234) (delay_random (sampleOracle 0x1234) World.start)
          0x08004000 0x08000400).code % UINT_MOD ≠ STATUS_OK
        ∧ (constVerifier 0 (sampleOracle 0x1234) (delay_random (sampleOracle 0x1234) World.start)
          0x08004000 0x08000400).code % UINT_MOD ≠ STATUS_FAIL
        ∧ (listing7_run (constVerifier 0) (sampleOracle 0x1234) 7
            (listing7_init World.start 0x08004000 0x08000400)).pc = .line 24
        ∧ erases (listing7_run (constVerifier 0) (sampleOracle 0x1234) 7
            (listing7_init World.start 0x08004000 0x08000400)).trace = 1) :=
  C11_erase_paths (constVerifier 0) (sampleOracle 0x1234) World.start 0x08004000 0x08000400 7
    (Nat.le_refl 7)

/-- C11 as stated fails: on a digest mismatch the controller of Listing7.c takes
the failure-code path, sets both pointers to `NULL` and halts on line 20, and
`erase_sensitive_data` has not been called. -/
theorem C11_erase_paths_counterexample :
    (listing7_run verify_image (mismatchOracle 0x1234 0x4321) 7
        (listing7_init World.start 0x08004000 0x08000400)).pc = .line 20
      ∧ (listing7_run verify_image (mismatchOracle 0x1234 0x4321) 7
        (listing7_init World.start 0x08004000 0x08000400)).test_image = NULL
      ∧ (listing7_run verify_image (mismatchOracle 0x1234 0x4321) 7
        (listing7_init World.start 0x08004000 0x08000400)).boot_image = NULL
      ∧ erases (listing7_run verify_image (mismatchOracle 0x1234 0x4321) 7
        (listing7_init World.start 0x08004000 0x08000400)).trace = 0
      ∧ erases (listing7_run verify_image (mismatchOracle 0x1234 0x4321) 20
        (listing7_init World.start 0x08004000 0x08000400)).trace = 0 := by
  decide

/-- C12: when the controller of Listing7.c observes the failure code, `test_image`
is `NULL` on line 19, and both `test_image` and `boot_image` are `NULL` whenever the
controller stands in the halt of line 20, which it does from the seventh statement
on, whatever the verifier left in `boot_image`. -/
theorem C12_scrub_before_halt (v : Verifier) (o : Oracle) (w : World)
    (test_image ERROR_HANDLER_ADDRESS : Nat)
    (hfail : (v o (delay_random o w) test_image ERROR_HANDLER_ADDRESS).code % UINT_MOD
      = STATUS_FAIL) :
    ((listing7_run v o 6 (listing7_init w test_image ERROR_HANDLER_ADDRESS)).pc = .line 19
        ∧ (listing7_run v o 6 (listing7_init w test_image ERROR_HANDLER_ADDRESS)).test_image
          = NULL)
      ∧ (∀ n, (listing7_run v o n (listing7_init w test_image ERROR_HANDLER_ADDRESS)).pc
            = .line 20 →
          (listing7_run v o n (listing7_init w test_image ERROR_HANDLER_ADDRESS)).test_image
              = NULL
            ∧ (listing7_run v o n (listing7_init w test_image ERROR_HANDLER_ADDRESS)).boot_image
              = NULL)
      ∧ (∀ n, 7 ≤ n →
          (listing7_run v o n (listing7_init w test_image ERROR_HANDLER_ADDRESS)).pc = .line 20
            ∧ (listing7_run v o n (listing7_init w test_image ERROR_HANDLER_ADDRESS)).test_image
              = NULL
            ∧ (listing7_run v o n (listing7_init w test_image ERROR_HANDLER_ADDRESS)).boot_image
              = NULL) := by
  refine ⟨?_, ?_, ?_⟩
  · simp [listing7_run, listing7_step, listing7_init, hfail, STATUS_FAIL_ne_OK]
  · intro n hpc
    obtain ⟨_, _, hnull, _⟩ :=
      listing7_rejected_path v o w test_image ERROR_HANDLER_ADDRESS hfail n
    exact hnull.resolve_left (fun h => h hpc)
  · intro n hn
    obtain ⟨_, _, hnull, _, _, _, _, hpc, _, _⟩ :=
      listing7_rejected_path v o w test_image ERROR_HANDLER_ADDRESS hfail n
    have hpc' := hpc.resolve_left (by omega)
    exact ⟨hpc', hnull.resolve_left (fun h => h hpc')⟩

theorem C12_scrub_before_halt_witness :
    (listing7_run verify_image (mismatchOracle 0x1234 0x4321) 7
        (listing7_init World.start 0x08004000 0x08000400)).pc = .line 20
      ∧ (listing7_run verify_image (mismatchOracle 0x1234 0x4321) 7
        (listing7_init World.start 0x08004000 0x08000400)).test_image = NULL
      ∧ (listing7_run verify_image (mismatchOracle 0x1234 0x4321) 7
        (listing7_init World.start 0x08004000 0x08000400)).boot_image = NULL :=
  (C12_scrub_before_halt verify_image (mismatchOracle 0x1234 0x4321) World.start 0x08004000
    0x08000400 (by decide)).2.2 7 (Nat.le_refl 7)

/-- C13: once the controller of Listing7.c has seen a status other than the
success code, it makes no further `load_image`, `verify_image`, `jump_to_image`
or `boot_backup_image` call: from the third statement on, the calls of that kind
are the one `load_image` and the one `verify_image` made before the branch, line 27
is never reached, and the halts of lines 20 and 24 have no way out. -/
theorem C13_halt_is_final (v : Verifier) (o : Oracle) (w : World)
    (test_image ERROR_HANDLER_ADDRESS : Nat)
    (hne : (v o (delay_random o w) test_image ERROR_HANDLER_ADDRESS).code % UINT_MOD
      ≠ STATUS_OK) :
    (∀ n, 3 ≤ n →
        bootCalls (listing7_run v o n (listing7_init w test_image ERROR_HANDLER_ADDRESS)).trace
          = [.load_image test_image, .verify_image test_image])
      ∧ (∀ n,
          jumps (listing7_run v o n (listing7_init w test_image ERROR_HANDLER_ADDRESS)).trace
              = []
            ∧ (listing7_run v o n (listing7_init w test_image ERROR_HANDLER_ADDRESS)).pc
              ≠ .line 27
            ∧ (listing7_run v o n (listing7_init w test_image ERROR_HANDLER_ADDRESS)).pc
              ≠ .finished
            ∧ (listing7_run v o n (listing7_init w test_image ERROR_HANDLER_ADDRESS)).pc
              ≠ .transferred)
      ∧ (∀ n, 7 ≤ n →
          (listing7_run v o n (listing7_init w test_image ERROR_HANDLER_ADDRESS)).pc = .line 20
            ∨ (listing7_run v o n (listing7_init w test_image ERROR_HANDLER_ADDRESS)).pc
              = .line 24)
      ∧ (∀ s : Ctl, s.pc = .line 20 ∨ s.pc = .line 24 → listing7_step v o s = s) := by
  refine ⟨?_, ?_, ?_, ?_⟩
  · intro n hn
    by_cases hfail : (v o (delay_random o w) test_image ERROR_HANDLER_ADDRESS).code % UINT_MOD
        = STATUS_FAIL
    · obtain ⟨_, _, _, _, _, _, hb, _⟩ :=
        listing7_rejected_path v o w test_image ERROR_HANDLER_ADDRESS hfail n
      exact hb.resolve_left (by omega)
    · obtain ⟨_, _, _, _, hb, _⟩ :=
        listing7_faulted_path v o w test_image ERROR_HANDLER_ADDRESS hne hfail n
      exact hb.resolve_left (by omega)
  · intro n
    by_cases hfail : (v o (delay_random o w) test_image ERROR_HANDLER_ADDRESS).code % UINT_MOD
        = STATUS_FAIL
    · obtain ⟨_, hj, _, h27, hfin, htr, _⟩ :=
        listing7_rejected_path v o w test_image ERROR_HANDLER_ADDRESS hfail n
      exact ⟨hj, h27, hfin, htr⟩
    · obtain ⟨hj, h27, hfin, htr, _⟩ :=
        listing7_faulted_path v o w test_image ERROR_HANDLER_ADDRESS hne hfail n
      exact ⟨hj, h27, hfin, htr⟩
  · intro n hn
    by_cases hfail : (v o (delay_random o w) test_image ERROR_HANDLER_ADDRESS).code % UINT_MOD
        = STATUS_FAIL
    · obtain ⟨_, _, _, _, _, _, _, hpc, _⟩ :=
        listing7_rejected_path v o w test_image ERROR_HANDLER_ADDRESS hfail n
      exact Or.inl (hpc.resolve_left (by omega))
    · obtain ⟨_, _, _, _, _, h24⟩ :=
        listing7_faulted_path v o w test_image ERROR_HANDLER_ADDRESS hne hfail n
      exact Or.inr (h24.resolve_left (by omega)).1
  · intro s hs
    rcases hs with h | h <;> simp [listing7_step, h]

theorem C13_halt_is_final_witness :
    bootCalls (listing7_run verify_image (mismatchOracle 0x1234 0x4321) 50
        (listing7_init World.start 0x08004000 0x08000400)).trace
      = [.load_image 0x08004000, .verify_image 0x08004000] :=
  (C13_halt_is_final verify_image (mismatchOracle 0x1234 0x4321) World.start 0x08004000
    0x08000400 (by decide)).1 50 (by decide)

/-- C14: in the controller of Listing4.c a negative result of `verify_image` leads
to the endless wait of line 9 and `jump_to_image` is never called; a non-negative
result leads to exactly one `jump_to_image(boot_image)`. So `jump_to_image` is
called if and only if the result is non-negative. -/
theorem C14_listing4_gate (verify : Nat → Int) (o : Oracle) (boot_image : Nat) :
    (verify boot_image < 0 →
        (∀ n, jumps (listing4_run verify o n (listing4_init boot_image)).trace = [])
          ∧ (∀ n, 2 ≤ n → (listing4_run verify o n (listing4_init boot_image)).pc = .line 9))
      ∧ (0 ≤ verify boot_image →
        ∀ n, 3 ≤ n →
          jumps (listing4_run verify o n (listing4_init boot_image)).trace = [boot_image])
      ∧ ((∃ n, jumps (listing4_run verify o n (listing4_init boot_image)).trace ≠ [])
        ↔ 0 ≤ verify boot_image) := by
  refine ⟨?_, ?_, ?_⟩
  · intro hneg
    refine ⟨fun n => (listing4_negative_path verify o boot_image hneg n).1, ?_⟩
    intro n hn
    exact (listing4_negative_path verify o boot_image hneg n).2.resolve_left (by omega)
  · intro hpos n hn
    exact (listing4_nonneg_path verify o boot_image hpos n hn).1
  · constructor
    · rintro ⟨n, hj⟩
      by_contra hneg
      exact hj (listing4_negative_path verify o boot_image (by omega) n).1
    · intro hpos
      refine ⟨3, ?_⟩
      rw [(listing4_nonneg_path verify o boot_image hpos 3 (Nat.le_refl 3)).1]
      simp

theorem C14_listing4_gate_witness :
    (∀ n, jumps (listing4_run (fun _ => -1) (sampleOracle 0x1234) n
        (listing4_init 0x08004000)).trace = [])
      ∧ (∀ n, 2 ≤ n → (listing4_run (fun _ => -1) (sampleOracle 0x1234) n
        (listing4_init 0x08004000)).pc = .line 9) :=
  (C14_listing4_gate (fun _ => -1) (sampleOracle 0x1234) 0x08004000).1 (by decide)

/-- C15: on a matching image each of the lines 16, 18 and 21 of Listing8.c removes
exactly one mask from `possible_ptr`: it holds `image ^ known ^ (1<<14) ^ (1<<15)`
after line 12, `image ^ known ^ (1<<15)` after line 16, `image ^ known` after
line 18 and `image` after line 21. -/
theorem C15_one_mask_per_step (o : Oracle) (w : World) (image : Nat)
    (hsame : o.get_known_hash w.knownCalls % UINT_MOD
      = o.get_known_hash (w.knownCalls + 1) % UINT_MOD)
    (hmatch : o.calculate_hash image % UINT_MOD = o.get_known_hash w.knownCalls % UINT_MOD) :
    possible_ptr_steps o w image
      = [image ^^^ (o.get_known_hash w.knownCalls % UINT_MOD) ^^^ (1 <<< 14) ^^^ (1 <<< 15),
         image ^^^ (o.get_known_hash w.knownCalls % UINT_MOD) ^^^ (1 <<< 15),
         image ^^^ (o.get_known_hash w.knownCalls % UINT_MOD),
         image] := by
  simp only [possible_ptr_steps, call_get_known_hash, call_calculate_hash, hmatch, ← hsame]
  simp [Nat.xor_assoc, Nat.xor_comm, xor_swap, xor_head]

theorem C15_one_mask_per_step_witness :
    possible_ptr_steps (sampleOracle 0x1234) World.start 0x08004000
      = [0x08004000 ^^^ (0x1234 % UINT_MOD) ^^^ (1 <<< 14) ^^^ (1 <<< 15),
         0x08004000 ^^^ (0x1234 % UINT_MOD) ^^^ (1 <<< 15),
         0x08004000 ^^^ (0x1234 % UINT_MOD),
         0x08004000] :=
  C15_one_mask_per_step (sampleOracle 0x1234) World.start 0x08004000 rfl rfl

/-- C16 (amended): one call of `verify_image` invokes `calculate_hash` exactly once
and `get_known_hash` exactly twice (line 4 for the comparison, line 10 for the
pointer mask), whichever conditionals are forced. -/
theorem C16_oracle_calls (g : Nat → Bool) (o : Oracle) (w : World) (image boot : Nat) :
    (verify_image o w image boot).world.hashCalls = w.hashCalls + 1
      ∧ (verify_image o w image boot).world.knownCalls = w.knownCalls + 2
      ∧ (verify_image_forced g o w image boot).world.hashCalls = w.hashCalls + 1
      ∧ (verify_image_forced g o w image boot).world.knownCalls = w.knownCalls + 2 := by
  refine ⟨?_, ?_, verify_image_forced_calls g o w image boot⟩
  · simp only [verify_image, call_get_known_hash, call_calculate_hash, delay_random]
    split_ifs <;> rfl
  · simp only [verify_image, call_get_known_hash, call_calculate_hash, delay_random]
    split_ifs <;> rfl

/-- C16 as stated fails: starting with no call made, one call of `verify_image` on
a matching image has invoked `get_known_hash` twice, and so has one call on a
mismatching image. -/
theorem C16_oracle_calls_counterexample :
    (verify_image (sampleOracle 0x1234) World.start 0x08004000 0x08000400).world.knownCalls = 2
      ∧ (verify_image (mismatchOracle 0x1234 0x4321) World.start 0x08004000
          0x08000400).world.knownCalls = 2
      ∧ World.start.knownCalls = 0 := by
  decide

/-- C17: on an image whose hash differs from the known hash, `verify_image` run
with at most two conditionals forced returns `0xF4110911` and stores nothing. A
run that does not return the failure code has all three abort checks (lines 15,
19, 22) forced, and forcing exactly those three makes the routine return the
default `0xFFFFFFFF` instead. -/
theorem C17_two_faults_mismatch (g : Nat → Bool) (o : Oracle) (w : World) (image boot : Nat)
    (hne : o.calculate_hash image % UINT_MOD ≠ o.get_known_hash w.knownCalls % UINT_MOD) :
    (forcedCount g ≤ 2 →
        (verify_image_forced g o w image boot).code = STATUS_FAIL
          ∧ (verify_image_forced g o w image boot).stored = false
          ∧ (verify_image_forced g o w image boot).boot = boot)
      ∧ ((verify_image_forced g o w image boot).code ≠ STATUS_FAIL →
        (g 15 = true ∧ g 19 = true ∧ g 22 = true) ∧ 3 ≤ forcedCount g)
      ∧ (forcedCount allAborts = 3
        ∧ (verify_image_forced allAborts o w image boot).code = STATUS_DEFAULT
        ∧ (verify_image_forced allAborts o w image boot).stored = false) := by
  refine ⟨?_, ?_, ?_, ?_, ?_⟩
  · intro hc
    exact forced_mismatch_abort g o w image boot hne (forcedCount_le_two g hc)
  · intro hcode
    have hall : g 15 = true ∧ g 19 = true ∧ g 22 = true := by
      by_contra hc
      apply hcode
      refine (forced_mismatch_abort g o w image boot hne ?_).1
      cases h15 : g 15 <;> cases h19 : g 19 <;> cases h22 : g 22 <;> simp_all
    refine ⟨hall, ?_⟩
    by_contra hlt
    have h2 : forcedCount g ≤ 2 := by omega
    rcases forcedCount_le_two g h2 with h | h | h <;> simp_all
  · decide
  · have hne' : ¬ o.get_known_hash w.knownCalls % UINT_MOD
        = o.calculate_hash image % UINT_MOD := fun h => hne h.symm
    simp [verify_image_forced, call_get_known_hash, call_calculate_hash, forced, allAborts,
      hne']
  · have hne' : ¬ o.get_known_hash w.knownCalls % UINT_MOD
        = o.calculate_hash image % UINT_MOD := fun h => hne h.symm
    simp [verify_image_forced, call_get_known_hash, call_calculate_hash, forced, allAborts,
      hne']

theorem C17_two_faults_mismatch_witness :
    (verify_image_forced (fun l => l == 15 || l == 19) (mismatchOracle 0x1234 0x4321)
        World.start 0x08004000 0x08000400).code = STATUS_FAIL
      ∧ (verify_image_forced (fun l => l == 15 || l == 19) (mismatchOracle 0x1234 0x4321)
        World.start 0x08004000 0x08000400).stored = false
      ∧ (verify_image_forced (fun l => l == 15 || l == 19) (mismatchOracle 0x1234 0x4321)
        World.start 0x08004000 0x08000400).boot = 0x08000400 :=
  (C17_two_faults_mismatch (fun l => l == 15 || l == 19) (mismatchOracle 0x1234 0x4321)
    World.start 0x08004000 0x08000400 (by decide)).1 (by decide)

/-- C18: without faults `verify_image` returns `0xDEADF00D` (through line 24) or
`0xF4110911` (through line 15) for every image and every oracle, never the default
of line 25; so the controller of Listing7.c linked with it never stands on line 23
or 24 and never calls `erase_sensitive_data`. -/
theorem C18_no_fault_no_erase (o : Oracle) (w : World)
    (test_image ERROR_HANDLER_ADDRESS boot n : Nat) :
    (((verify_image o w test_image boot).code = STATUS_OK
          ∧ (verify_image o w test_image boot).exit = 24)
        ∨ ((verify_image o w test_image boot).code = STATUS_FAIL
          ∧ (verify_image o w test_image boot).exit = 15))
      ∧ (verify_image o w test_image boot).exit ≠ 25
      ∧ (listing7_run verify_image o n
          (listing7_init w test_image ERROR_HANDLER_ADDRESS)).pc ≠ .line 23
      ∧ (listing7_run verify_image o n
          (listing7_init w test_image ERROR_HANDLER_ADDRESS)).pc ≠ .line 24
      ∧ erases (listing7_run verify_image o n
          (listing7_init w test_image ERROR_HANDLER_ADDRESS)).trace = 0 := by
  refine ⟨verify_image_codes o w test_image boot, ?_, ?_⟩
  · rcases verify_image_codes o w test_image boot with ⟨_, h⟩ | ⟨_, h⟩ <;> rw [h] <;> decide
  · rcases verify_image_codes o (delay_random o w) test_image ERROR_HANDLER_ADDRESS with
      ⟨hc, _⟩ | ⟨hc, _⟩
    · have hok : (verify_image o (delay_random o w) test_image ERROR_HANDLER_ADDRESS).code
          % UINT_MOD = STATUS_OK := by rw [hc, STATUS_OK_lt]
      obtain ⟨he, h23, h24⟩ :=
        listing7_verified_path verify_image o w test_image ERROR_HANDLER_ADDRESS hok n
      exact ⟨h23, h24, he⟩
    · have hfail : (verify_image o (delay_random o w) test_image ERROR_HANDLER_ADDRESS).code
          % UINT_MOD = STATUS_FAIL := by rw [hc, STATUS_FAIL_lt]
      obtain ⟨he, _, _, _, _, _, _, _, h23, h24⟩ :=
        listing7_rejected_path verify_image o w test_image ERROR_HANDLER_ADDRESS hfail n
      exact ⟨h23, h24, he⟩

end SecureBoot
